import Mathlib

/-!
Shallow embedding of `carrier_api/status.py`: the JSON value model, the
safe dotted-path field accessor, and the `StatusZone` / `StatusODU` /
`StatusIDU` / `Status` constructors, together with theorems settling the
claims about them.

Python exceptions are modelled by `Except PyErr`; Python `None` and JSON
`null` are both `Json.null`; JSON numbers are rationals.
-/

/-- JSON-compatible values: null, booleans, numbers, strings, arrays and
string-keyed mappings. -/
inductive Json where
  | null
  | bool (b : Bool)
  | num (q : Rat)
  | str (s : String)
  | arr (items : List Json)
  | obj (fields : List (String × Json))
deriving Repr, Inhabited

/-- Python exception model: the exception classes that the parsing code can
raise, each carrying its message or offending key. -/
inductive PyErr where
  | keyError (key : String)
  | valueError (msg : String)
  | typeError (msg : String)
deriving Repr, DecidableEq, Inhabited

/-- Target primitive types that `safely_get_json_value` can coerce to
(Python `str`, `int`, `float`, `bool`). -/
inductive PyTy where
  | pstr
  | pint
  | pfloat
  | pbool
deriving Repr, DecidableEq, Inhabited

/-- True when the computation raised. -/
def isErr {α : Type} : Except PyErr α → Bool
  | Except.error _ => true
  | Except.ok _ => false

/-- Lookup of a key in the field list of a mapping (first match). -/
def lookupField : List (String × Json) → String → Option Json
  | [], _ => none
  | (k, v) :: rest, key => if k == key then some v else lookupField rest key

/-- Key lookup on a JSON value: mappings look up the key, every other
value has no keys. -/
def Json.lookup : Json → String → Option Json
  | Json.obj fields, key => lookupField fields key
  | _, _ => none

/-- Splits a list of characters on every dot, accumulating the current
segment in reverse. -/
def splitSegs : List Char → List Char → List String
  | [], acc => [String.mk acc.reverse]
  | c :: rest, acc =>
    if c = '.' then String.mk acc.reverse :: splitSegs rest []
    else splitSegs rest (c :: acc)

/-- Splits a dotted path string into its segments. -/
def splitPath (path : String) : List String := splitSegs path.data []

/-- Modelled from the spec: the traversal step of `SafeFieldAccessor`
(`safely_get_json_value` in `carrier_api/util.py`, not among the provided
sources). For each segment, if the current value is a mapping containing
the segment key, descend; otherwise the lookup is absent and traversal
halts, yielding the null-equivalent. -/
def walkPath : Json → List String → Json
  | j, [] => j
  | j, seg :: rest =>
    match j.lookup seg with
    | some v => walkPath v rest
    | none => Json.null

/-- Digit value of a character, when it is a decimal digit. -/
def digitVal (c : Char) : Option Nat :=
  if c.isDigit then some (c.toNat - 48) else none

/-- Parses a run of decimal digits into a natural number; fails on any
non-digit character. -/
def parseDigitsAux : List Char → Nat → Option Nat
  | [], acc => some acc
  | c :: rest, acc =>
    match digitVal c with
    | some d => parseDigitsAux rest (acc * 10 + d)
    | none => none

/-- Parses a non-empty run of decimal digits. -/
def parseDigits (cs : List Char) : Option Nat :=
  match cs with
  | [] => none
  | _ => parseDigitsAux cs 0

/-- Modelled from the spec: decimal integer literal parsing, as used when a
string value is coerced to `int`. -/
def parseIntChars : List Char → Option Int
  | [] => none
  | '-' :: rest => (parseDigits rest).map (fun n => -(n : Int))
  | cs => (parseDigits cs).map (fun n => (n : Int))

/-- Splits a character list at the first dot, returning the part before it
and, when a dot is present, the part after it. -/
def splitOnDot : List Char → List Char × Option (List Char)
  | [] => ([], none)
  | '.' :: rest => ([], some rest)
  | c :: rest =>
    let p := splitOnDot rest
    (c :: p.1, p.2)

/-- Modelled from the spec: unsigned decimal literal parsing (digits with an
optional fractional part), as used when a string value is coerced to
`float`. -/
def parseUnsignedFloat (cs : List Char) : Option Rat :=
  match splitOnDot cs with
  | (intPart, none) => (parseDigits intPart).map (fun n => (n : Rat))
  | (intPart, some fracPart) =>
    match parseDigits intPart, parseDigits fracPart with
    | some i, some f => some ((i : Rat) + (f : Rat) / (10 : Rat) ^ fracPart.length)
    | _, _ => none

/-- Signed decimal literal parsing for `float` coercion. -/
def parseFloatChars : List Char → Option Rat
  | [] => none
  | '-' :: rest => (parseUnsignedFloat rest).map (fun q => -q)
  | cs => parseUnsignedFloat cs

/-- Printable rendering of a rational, used only by the string coercion. -/
def ratToString (q : Rat) : String := toString q.num ++ "/" ++ toString q.den

/-- Modelled from the spec: Python `str()` applied to a JSON-decoded value.
Total; composite values render to a placeholder that is never a vendor
vocabulary word. -/
def pyStr : Json → String
  | Json.null => "None"
  | Json.bool true => "True"
  | Json.bool false => "False"
  | Json.str s => s
  | Json.num q => ratToString q
  | Json.arr _ => "<list>"
  | Json.obj _ => "<dict>"

/-- Modelled from the spec: Python truthiness of a JSON-decoded value, used
by `bool` coercion. -/
def pyTruthy : Json → Bool
  | Json.null => false
  | Json.bool b => b
  | Json.str s => s.length != 0
  | Json.num q => q != 0
  | Json.arr items => !items.isEmpty
  | Json.obj fields => !fields.isEmpty

/-- Truncation of a rational toward zero, as Python `int()` on a float. -/
def pyIntOfRat (q : Rat) : Int := q.num.tdiv (q.den : Int)

/-- Modelled from the spec: coercion of a non-null JSON value to the
requested primitive type; a value that cannot be coerced raises. -/
def coerce : PyTy → Json → Except PyErr Json
  | PyTy.pstr, v => Except.ok (Json.str (pyStr v))
  | PyTy.pbool, v => Except.ok (Json.bool (pyTruthy v))
  | PyTy.pint, Json.num q => Except.ok (Json.num ((pyIntOfRat q : Int) : Rat))
  | PyTy.pint, Json.bool b => Except.ok (Json.num (if b then 1 else 0))
  | PyTy.pint, Json.str s =>
    match parseIntChars s.data with
    | some n => Except.ok (Json.num (n : Rat))
    | none => Except.error (PyErr.valueError ("invalid literal for int: " ++ s))
  | PyTy.pint, _ => Except.error (PyErr.typeError "int argument has wrong type")
  | PyTy.pfloat, Json.num q => Except.ok (Json.num q)
  | PyTy.pfloat, Json.bool b => Except.ok (Json.num (if b then 1 else 0))
  | PyTy.pfloat, Json.str s =>
    match parseFloatChars s.data with
    | some q => Except.ok (Json.num q)
    | none => Except.error (PyErr.valueError ("could not convert string to float: " ++ s))
  | PyTy.pfloat, _ => Except.error (PyErr.typeError "float argument has wrong type")

/-- Modelled from the spec: `SafeFieldAccessor.get`, the function
`safely_get_json_value(payload, dotted_path, target_type)` of
`carrier_api/util.py`, which is not among the provided sources. Traverses
the dotted path; an absent path or a null value yields the null-equivalent
default without raising; a non-null value is returned raw when no type is
supplied, and coerced to the target type otherwise. -/
def safely_get_json_value (j : Json) (path : String) (ty : Option PyTy) : Except PyErr Json :=
  match walkPath j (splitPath path), ty with
  | Json.null, _ => Except.ok Json.null
  | v, none => Except.ok v
  | v, some t => coerce t v

/-- Modelled from the spec: the temperature-unit closed vocabulary
(`TemperatureUnits` of `carrier_api/const.py`, not among the provided
sources). -/
inductive TemperatureUnits where
  | fahrenheit
  | celsius
deriving Repr, DecidableEq, Inhabited

/-- Underlying string of a temperature-unit member. -/
def TemperatureUnits.value : TemperatureUnits → String
  | TemperatureUnits.fahrenheit => "F"
  | TemperatureUnits.celsius => "C"

/-- Enum construction from a raw value: the member with that value, or a
raised error for a value outside the vocabulary. -/
def TemperatureUnits.ofJson : Json → Except PyErr TemperatureUnits
  | Json.str "F" => Except.ok TemperatureUnits.fahrenheit
  | Json.str "C" => Except.ok TemperatureUnits.celsius
  | _ => Except.error (PyErr.valueError "not a valid TemperatureUnits")

/-- Modelled from the spec: the coarse system-mode classification vocabulary
(`SystemModes` of `carrier_api/const.py`). -/
inductive SystemModes where
  | heat
  | cool
  | off
deriving Repr, DecidableEq, Inhabited

/-- Underlying string of a system-mode member. -/
def SystemModes.value : SystemModes → String
  | SystemModes.heat => "heat"
  | SystemModes.cool => "cool"
  | SystemModes.off => "off"

/-- Modelled from the spec: the fan-mode closed vocabulary (`FanModes` of
`carrier_api/const.py`). -/
inductive FanModes where
  | off
  | low
  | med
  | high
deriving Repr, DecidableEq, Inhabited

/-- Underlying string of a fan-mode member. -/
def FanModes.value : FanModes → String
  | FanModes.off => "off"
  | FanModes.low => "low"
  | FanModes.med => "med"
  | FanModes.high => "high"

/-- Enum construction from a raw value for fan modes. -/
def FanModes.ofJson : Json → Except PyErr FanModes
  | Json.str "off" => Except.ok FanModes.off
  | Json.str "low" => Except.ok FanModes.low
  | Json.str "med" => Except.ok FanModes.med
  | Json.str "high" => Except.ok FanModes.high
  | _ => Except.error (PyErr.valueError "not a valid FanModes")

/-- Modelled from the spec: the activity-type closed vocabulary
(`ActivityTypes` of `carrier_api/const.py`). -/
inductive ActivityTypes where
  | home
  | away
  | sleep
  | wake
  | vacation
  | manual
deriving Repr, DecidableEq, Inhabited

/-- Underlying string of an activity-type member. -/
def ActivityTypes.value : ActivityTypes → String
  | ActivityTypes.home => "home"
  | ActivityTypes.away => "away"
  | ActivityTypes.sleep => "sleep"
  | ActivityTypes.wake => "wake"
  | ActivityTypes.vacation => "vacation"
  | ActivityTypes.manual => "manual"

/-- Enum construction from a raw value for activity types. -/
def ActivityTypes.ofJson : Json → Except PyErr ActivityTypes
  | Json.str "home" => Except.ok ActivityTypes.home
  | Json.str "away" => Except.ok ActivityTypes.away
  | Json.str "sleep" => Except.ok ActivityTypes.sleep
  | Json.str "wake" => Except.ok ActivityTypes.wake
  | Json.str "vacation" => Except.ok ActivityTypes.vacation
  | Json.str "manual" => Except.ok ActivityTypes.manual
  | _ => Except.error (PyErr.valueError "not a valid ActivityTypes")

/-- Shape check for an ISO-8601 timestamp of the form
YYYY-MM-DDTHH:MM:SS, used by the timestamp parser model. -/
def isIsoTimestamp (s : String) : Bool :=
  match s.data with
  | [y1, y2, y3, y4, a1, m1, m2, a2, d1, d2, t1, h1, h2, c1, n1, n2, c2, s1, s2] =>
    y1.isDigit && y2.isDigit && y3.isDigit && y4.isDigit &&
    a1 == '-' && m1.isDigit && m2.isDigit && a2 == '-' &&
    d1.isDigit && d2.isDigit && t1 == 'T' &&
    h1.isDigit && h2.isDigit && c1 == ':' &&
    n1.isDigit && n2.isDigit && c2 == ':' &&
    s1.isDigit && s2.isDigit
  | _ => false

/-- Modelled from the spec: `dateutil.parser.isoparse` applied to the raw
`utcTime` value; the timestamp is required and must be an ISO-8601 string,
anything else raises. The parsed timestamp is modelled by the validated
string itself. -/
def isoparse : Json → Except PyErr String
  | Json.str s =>
    if isIsoTimestamp s then Except.ok s
    else Except.error (PyErr.valueError ("invalid isoformat string: " ++ s))
  | _ => Except.error (PyErr.typeError "isoparse argument must be str")

/-- Python mapping subscript `j[key]`: the value when the key is present,
a raised KeyError otherwise. -/
def requireKey (j : Json) (key : String) : Except PyErr Json :=
  match j.lookup key with
  | some v => Except.ok v
  | none => Except.error (PyErr.keyError key)

/-- Python `for ... in j[key]`: the key must be present and its value an
iterable sequence. -/
def requireArr (j : Json) (key : String) : Except PyErr (List Json) := do
  let v ← requireKey j key
  match v with
  | Json.arr items => Except.ok items
  | _ => Except.error (PyErr.typeError "object is not iterable")

/-- Live readings of one climate zone and setpoints, as built by
`StatusZone.__init__` (status.py lines 11-24). -/
structure StatusZone where
  api_id : Json
  name : Json
  current_activity : ActivityTypes
  temperature : Json
  humidity : Json
  occupancy : Bool
  fan : FanModes
  hold : Bool
  hold_until : Json
  heat_set_point : Json
  cool_set_point : Json
  conditioning : Json
deriving Repr, Inhabited

/-- Translation of `StatusZone.__init__` (status.py lines 12-24): every
field is extracted with the safe accessor except the two required enum
fields, which use direct subscripting followed by enum construction. -/
def StatusZone.init (zj : Json) : Except PyErr StatusZone := do
  let api_id ← safely_get_json_value zj "id" (some PyTy.pstr)
  let name ← safely_get_json_value zj "name" none
  let caRaw ← requireKey zj "currentActivity"
  let current_activity ← ActivityTypes.ofJson caRaw
  let temperature ← safely_get_json_value zj "rt" (some PyTy.pfloat)
  let humidity ← safely_get_json_value zj "rh" (some PyTy.pint)
  let occRaw ← safely_get_json_value zj "occupancy" none
  let fanRaw ← requireKey zj "fan"
  let fan ← FanModes.ofJson fanRaw
  let holdRaw ← safely_get_json_value zj "hold" none
  let hold_until ← safely_get_json_value zj "otmr" none
  let heat_set_point ← safely_get_json_value zj "htsp" (some PyTy.pfloat)
  let cool_set_point ← safely_get_json_value zj "clsp" (some PyTy.pfloat)
  let conditioning ← safely_get_json_value zj "zoneconditioning" none
  Except.ok
    { api_id := api_id
      name := name
      current_activity := current_activity
      temperature := temperature
      humidity := humidity
      occupancy := (match occRaw with | Json.str s => s == "occupied" | _ => false)
      fan := fan
      hold := (match holdRaw with | Json.str s => s == "on" | _ => false)
      hold_until := hold_until
      heat_set_point := heat_set_point
      cool_set_point := cool_set_point
      conditioning := conditioning }

/-- Translation of the `StatusZone.zone_conditioning_const` property
(status.py lines 26-35): classifies the raw conditioning value, raising on
anything outside the seven known strings. -/
def StatusZone.zone_conditioning_const (z : StatusZone) : Except PyErr SystemModes :=
  match z.conditioning with
  | Json.str "active_heat" | Json.str "prep_heat" | Json.str "pending_heat" =>
    Except.ok SystemModes.heat
  | Json.str "active_cool" | Json.str "prep_cool" | Json.str "pending_cool" =>
    Except.ok SystemModes.cool
  | Json.str "idle" => Except.ok SystemModes.off
  | _ => Except.error (PyErr.valueError "Unknown conditioning")

/-- Translation of `StatusZone.__repr__` (status.py lines 37-51). -/
def StatusZone.reprJson (z : StatusZone) : Json :=
  Json.obj
    [ ("id", z.api_id)
    , ("name", z.name)
    , ("current_activity", Json.str z.current_activity.value)
    , ("temperature", z.temperature)
    , ("humidity", z.humidity)
    , ("fan", Json.str z.fan.value)
    , ("hold", Json.bool z.hold)
    , ("occupancy", Json.bool z.occupancy)
    , ("hold_until", z.hold_until)
    , ("heat_set_point", z.heat_set_point)
    , ("cool_set_point", z.cool_set_point)
    , ("conditioning", z.conditioning) ]

/-- Outdoor-unit telemetry snapshot, as built by `StatusODU.__init__`
(status.py lines 58-83). -/
structure StatusODU where
  raw : Json
  type : Json
  operational_status : Json
  idu_cfm : Json
  odu_coil_temp : Json
  blower_rpm : Json
  line_voltage : Json
  compressor_rpm : Json
  suction_pressure : Json
  suction_temp : Json
  suction_superheat : Json
  discharge_temp : Json
  exv_position : Json
  ac_line_current : Json
  dc_bus_voltage : Json
  discharge_pressure : Json
  discharge_superheat : Json
  ipm_temperature : Json
  pfcm_temperature : Json
  outdoor_fan_rpm : Json
deriving Repr, Inhabited

/-- Translation of `StatusODU.__init__` (status.py lines 61-83). -/
def StatusODU.init (raw : Json) : Except PyErr StatusODU := do
  let type ← safely_get_json_value raw "type" (some PyTy.pstr)
  let operational_status ← safely_get_json_value raw "opstat" (some PyTy.pstr)
  let idu_cfm ← safely_get_json_value raw "iducfm" (some PyTy.pint)
  let odu_coil_temp ← safely_get_json_value raw "oducoiltmp" (some PyTy.pfloat)
  let blower_rpm ← safely_get_json_value raw "blwrpm" (some PyTy.pint)
  let line_voltage ← safely_get_json_value raw "linevolt" (some PyTy.pint)
  let compressor_rpm ← safely_get_json_value raw "comprpm" (some PyTy.pint)
  let suction_pressure ← safely_get_json_value raw "suctpress" (some PyTy.pint)
  let suction_temp ← safely_get_json_value raw "sucttemp" (some PyTy.pfloat)
  let suction_superheat ← safely_get_json_value raw "suctsupheat" (some PyTy.pfloat)
  let discharge_temp ← safely_get_json_value raw "dischargetmp" (some PyTy.pfloat)
  let exv_position ← safely_get_json_value raw "exvpos" (some PyTy.pint)
  let ac_line_current ← safely_get_json_value raw "aclinecurrent" (some PyTy.pfloat)
  let dc_bus_voltage ← safely_get_json_value raw "dcbusvoltage" (some PyTy.pfloat)
  let discharge_pressure ← safely_get_json_value raw "dischargepressure" (some PyTy.pfloat)
  let discharge_superheat ← safely_get_json_value raw "dischargesuperheat" (some PyTy.pfloat)
  let ipm_temperature ← safely_get_json_value raw "ipmtemperature" (some PyTy.pfloat)
  let pfcm_temperature ← safely_get_json_value raw "pfcmtemperature" (some PyTy.pfloat)
  let outdoor_fan_rpm ← safely_get_json_value raw "outdoorfanrpm" (some PyTy.pint)
  Except.ok
    { raw := raw
      type := type
      operational_status := operational_status
      idu_cfm := idu_cfm
      odu_coil_temp := odu_coil_temp
      blower_rpm := blower_rpm
      line_voltage := line_voltage
      compressor_rpm := compressor_rpm
      suction_pressure := suction_pressure
      suction_temp := suction_temp
      suction_superheat := suction_superheat
      discharge_temp := discharge_temp
      exv_position := exv_position
      ac_line_current := ac_line_current
      dc_bus_voltage := dc_bus_voltage
      discharge_pressure := discharge_pressure
      discharge_superheat := discharge_superheat
      ipm_temperature := ipm_temperature
      pfcm_temperature := pfcm_temperature
      outdoor_fan_rpm := outdoor_fan_rpm }

/-- Translation of `StatusODU.__repr__` (status.py lines 85-106). -/
def StatusODU.reprJson (u : StatusODU) : Json :=
  Json.obj
    [ ("type", u.type)
    , ("operational_status", u.operational_status)
    , ("idu_cfm", u.idu_cfm)
    , ("odu_coil_temp", u.odu_coil_temp)
    , ("blower_rpm", u.blower_rpm)
    , ("line_voltage", u.line_voltage)
    , ("compressor_rpm", u.compressor_rpm)
    , ("suction_pressure", u.suction_pressure)
    , ("suction_temp", u.suction_temp)
    , ("suction_superheat", u.suction_superheat)
    , ("discharge_temp", u.discharge_temp)
    , ("exv_position", u.exv_position)
    , ("ac_line_current", u.ac_line_current)
    , ("dc_bus_voltage", u.dc_bus_voltage)
    , ("discharge_pressure", u.discharge_pressure)
    , ("discharge_superheat", u.discharge_superheat)
    , ("ipm_temperature", u.ipm_temperature)
    , ("pfcm_temperature", u.pfcm_temperature)
    , ("outdoor_fan_rpm", u.outdoor_fan_rpm) ]

/-- Indoor-unit telemetry snapshot, as built by `StatusIDU.__init__`
(status.py lines 111-122). -/
structure StatusIDU where
  raw : Json
  type : Json
  operational_status : Json
  airflow_cfm : Json
  static_pressure : Json
  blower_rpm : Json
deriving Repr, Inhabited

/-- Translation of `StatusIDU.__init__` (status.py lines 114-122). -/
def StatusIDU.init (raw : Json) : Except PyErr StatusIDU := do
  let type ← safely_get_json_value raw "type" (some PyTy.pstr)
  let operational_status ← safely_get_json_value raw "opstat" (some PyTy.pstr)
  let airflow_cfm ← safely_get_json_value raw "cfm" (some PyTy.pint)
  let static_pressure ← safely_get_json_value raw "statpress" (some PyTy.pfloat)
  let blower_rpm ← safely_get_json_value raw "blwrpm" (some PyTy.pint)
  Except.ok
    { raw := raw
      type := type
      operational_status := operational_status
      airflow_cfm := airflow_cfm
      static_pressure := static_pressure
      blower_rpm := blower_rpm }

/-- Translation of `StatusIDU.__repr__` (status.py lines 124-131). -/
def StatusIDU.reprJson (u : StatusIDU) : Json :=
  Json.obj
    [ ("type", u.type)
    , ("operational_status", u.operational_status)
    , ("airflow_cfm", u.airflow_cfm)
    , ("static_pressure", u.static_pressure)
    , ("blower_rpm", u.blower_rpm) ]

/-- Top-level status aggregate, as built by `Status.__init__`
(status.py lines 136-179). The humidifier-on field is `Json.null` when it
was never assigned (the class-attribute default). -/
structure Status where
  raw : Json
  outdoor_temperature : Json
  mode : Json
  temperature_unit : TemperatureUnits
  filter_used : Json
  humidity_level : Json
  humidifier_on : Json
  uv_lamp_level : Json
  is_disconnected : Json
  airflow_cfm : Json
  blower_rpm : Json
  static_pressure : Json
  outdoor_unit_operational_status : Json
  indoor_unit_operational_status : Json
  time_stamp : String
  zones : List StatusZone
  odu : StatusODU
  idu : StatusIDU
deriving Repr, Inhabited

/-- Translation of status.py lines 163-164: the humidifier-on value is
assigned only when `raw.get("humid")` is not `None`; it is the string
coercion of the value compared against the literal on-string. -/
def humidValue (raw : Json) : Except PyErr Json :=
  match raw.lookup "humid" with
  | none => Except.ok Json.null
  | some Json.null => Except.ok Json.null
  | some _ => do
    let s ← safely_get_json_value raw "humid" (some PyTy.pstr)
    Except.ok (Json.bool (match s with | Json.str t => t == "on" | _ => false))

/-- Translation of the zone-filter test of status.py line 175: the zone
record has an `enabled` value that,, fetched with the safe accessor, equals the
string on-value. -/
def zoneEnabled (zj : Json) : Bool :=
  match safely_get_json_value zj "enabled" none with
  | Except.ok (Json.str s) => s == "on"
  | _ => false

/-- Translation of the zone loop of status.py lines 173-176: walk the
zone records in payload order, constructing a `StatusZone` for each
enabled one and skipping the rest. -/
def buildZones : List Json → Except PyErr (List StatusZone)
  | [] => Except.ok []
  | zj :: rest =>
    if zoneEnabled zj then do
      let z ← StatusZone.init zj
      let zs ← buildZones rest
      Except.ok (z :: zs)
    else buildZones rest

/-- Translation of `Status.__init__` (status.py lines 153-179), in source
order: the safe extractions, the required subscript of `cfgem` fed to the
temperature-unit enum, the conditional humidifier assignment, the required
timestamp parse, the zone loop, and the two unit snapshots built from the
sub-mappings (defaulting to an empty mapping when absent). -/
def Status.init (raw : Json) : Except PyErr Status := do
  let outdoor_temperature ← safely_get_json_value raw "oat" (some PyTy.pfloat)
  let mode ← safely_get_json_value raw "mode" none
  let cfgemRaw ← requireKey raw "cfgem"
  let temperature_unit ← TemperatureUnits.ofJson cfgemRaw
  let filter_used ← safely_get_json_value raw "filtrlvl" (some PyTy.pint)
  let humidity_level ← safely_get_json_value raw "humlvl" (some PyTy.pint)
  let humidifier_on ← humidValue raw
  let uv_lamp_level ← safely_get_json_value raw "uvlvl" (some PyTy.pint)
  let is_disconnected ← safely_get_json_value raw "isDisconnected" (some PyTy.pbool)
  let airflow_cfm ← safely_get_json_value raw "idu.cfm" (some PyTy.pint)
  let blower_rpm ← safely_get_json_value raw "idu.blwrpm" (some PyTy.pint)
  let static_pressure ← safely_get_json_value raw "idu.statpress" (some PyTy.pfloat)
  let outdoor_unit_operational_status ← safely_get_json_value raw "odu.opstat" none
  let indoor_unit_operational_status ← safely_get_json_value raw "idu.opstat" none
  let utcRaw ← safely_get_json_value raw "utcTime" none
  let time_stamp ← isoparse utcRaw
  let zoneJsons ← requireArr raw "zones"
  let zones ← buildZones zoneJsons
  let odu ← StatusODU.init ((raw.lookup "odu").getD (Json.obj []))
  let idu ← StatusIDU.init ((raw.lookup "idu").getD (Json.obj []))
  Except.ok
    { raw := raw
      outdoor_temperature := outdoor_temperature
      mode := mode
      temperature_unit := temperature_unit
      filter_used := filter_used
      humidity_level := humidity_level
      humidifier_on := humidifier_on
      uv_lamp_level := uv_lamp_level
      is_disconnected := is_disconnected
      airflow_cfm := airflow_cfm
      blower_rpm := blower_rpm
      static_pressure := static_pressure
      outdoor_unit_operational_status := outdoor_unit_operational_status
      indoor_unit_operational_status := indoor_unit_operational_status
      time_stamp := time_stamp
      zones := zones
      odu := odu
      idu := idu }

/-- Translation of the `Status.mode_const` property (status.py lines
181-188): classifies the raw mode value, raising on anything outside the
four known strings. -/
def Status.mode_const (st : Status) : Except PyErr SystemModes :=
  match st.mode with
  | Json.str "gasheat" | Json.str "electric" | Json.str "hpheat" =>
    Except.ok SystemModes.heat
  | Json.str "dehumidify" => Except.ok SystemModes.cool
  | _ => Except.error (PyErr.valueError "Unknown mode")

/-- Translation of `Status.__repr__` (status.py lines 190-207). -/
def Status.reprJson (st : Status) : Json :=
  Json.obj
    [ ("outdoor_temperature", st.outdoor_temperature)
    , ("mode", st.mode)
    , ("temperature_unit", Json.str st.temperature_unit.value)
    , ("filter_used", st.filter_used)
    , ("is_disconnected", st.is_disconnected)
    , ("airflow_cfm", st.airflow_cfm)
    , ("blower_rpm", st.blower_rpm)
    , ("static_pressure", st.static_pressure)
    , ("humidity_level", st.humidity_level)
    , ("humidifier_on", st.humidifier_on)
    , ("outdoor_unit_operational_status", st.outdoor_unit_operational_status)
    , ("indoor_unit_operational_status", st.indoor_unit_operational_status)
    , ("zones", Json.arr (st.zones.map StatusZone.reprJson))
    , ("odu", st.odu.reprJson)
    , ("idu", st.idu.reprJson) ]

/-- Effectful map over a list in the exception monad: the per-element
results in order, or the first raised error. -/
def mapExcept {α β : Type} (f : α → Except PyErr β) : List α → Except PyErr (List β)
  | [] => Except.ok []
  | a :: rest => do
    let b ← f a
    let bs ← mapExcept f rest
    Except.ok (b :: bs)

/-- Resolution of a segment list through nested mappings: every segment in
turn is a key of the current mapping, and the final value is reached. -/
inductive ResolvesTo : List String → Json → Json → Prop
  | nil (j : Json) : ResolvesTo [] j j
  | cons (seg : String) (rest : List String) (fields : List (String × Json))
      (x v : Json) :
      lookupField fields seg = some x →
      ResolvesTo rest x v →
      ResolvesTo (seg :: rest) (Json.obj fields) v

/-- Minimal valid payload with the operating-mode key entirely absent. -/
def payloadNoMode : Json :=
  Json.obj
    [ ("cfgem", Json.str "F")
    , ("utcTime", Json.str "2024-01-02T03:04:05")
    , ("zones", Json.arr []) ]

/-- Zone record with a valid activity and fan but an out-of-vocabulary
conditioning value. -/
def zoneFrozen : Json :=
  Json.obj
    [ ("currentActivity", Json.str "home")
    , ("fan", Json.str "low")
    , ("zoneconditioning", Json.str "frozen") ]

/-- Payload missing `cfgem` whose `oat` value cannot be coerced to float. -/
def payloadBadOat : Json :=
  Json.obj [ ("oat", Json.str "abc") ]

/-- Valid payload whose `humid` value is the string off-value. -/
def payloadHumidOff : Json :=
  Json.obj
    [ ("cfgem", Json.str "F")
    , ("utcTime", Json.str "2024-01-02T03:04:05")
    , ("humid", Json.str "off")
    , ("zones", Json.arr []) ]

/-- Zone record that is enabled and constructible. -/
def zoneOn : Json :=
  Json.obj
    [ ("enabled", Json.str "on")
    , ("currentActivity", Json.str "home")
    , ("fan", Json.str "low") ]

/-- Zone record that is disabled. -/
def zoneOff : Json :=
  Json.obj [ ("enabled", Json.str "off") ]

/-- Valid payload with one enabled and one disabled zone. -/
def payloadTwoZones : Json :=
  Json.obj
    [ ("cfgem", Json.str "F")
    , ("mode", Json.str "gasheat")
    , ("utcTime", Json.str "2024-01-02T03:04:05")
    , ("zones", Json.arr [zoneOn, zoneOff]) ]

/-- Valid payload with a non-null UV-lamp level. -/
def payloadUv : Json :=
  Json.obj
    [ ("cfgem", Json.str "F")
    , ("utcTime", Json.str "2024-01-02T03:04:05")
    , ("uvlvl", Json.num 3)
    , ("zones", Json.arr []) ]

/-- Valid payload with an `idu` sub-mapping carrying telemetry. -/
def payloadIdu : Json :=
  Json.obj
    [ ("cfgem", Json.str "F")
    , ("utcTime", Json.str "2024-01-02T03:04:05")
    , ("idu", Json.obj [ ("cfm", Json.num 400), ("blwrpm", Json.num 900), ("statpress", Json.num 1) ])
    , ("zones", Json.arr []) ]

/-- Statement-side vocabulary test, following the spec words: the four
operating-mode strings the spec allows. -/
def modeInVocab : Json → Bool
  | Json.str "gasheat" | Json.str "electric" | Json.str "hpheat"
  | Json.str "dehumidify" => true
  | _ => false

/-- Statement-side vocabulary test, following the spec words: the seven
conditioning strings the spec allows. -/
def condInVocab : Json → Bool
  | Json.str "active_heat" | Json.str "prep_heat" | Json.str "pending_heat"
  | Json.str "active_cool" | Json.str "prep_cool" | Json.str "pending_cool"
  | Json.str "idle" => true
  | _ => false

theorem except_bind_ok {α β : Type} (x : Except PyErr α) (f : α → Except PyErr β) (b : β) :
    (x >>= f) = Except.ok b ↔ ∃ a, x = Except.ok a ∧ f a = Except.ok b := by
  cases x <;> simp [Bind.bind, Except.bind]

theorem sgjv_none_ok (j : Json) (path : String) :
    safely_get_json_value j path none = Except.ok (walkPath j (splitPath path)) := by
  unfold safely_get_json_value
  cases walkPath j (splitPath path) <;> rfl

theorem resolvesTo_walkPath (segs : List String) (j v : Json)
    (h : ResolvesTo segs j v) : walkPath j segs = v := by
  induction h with
  | nil j => rfl
  | cons seg rest fields x v hlook hrest ih =>
    simp [walkPath, Json.lookup, hlook, ih]

theorem walkPath_null_or_resolves (segs : List String) (j : Json) :
    walkPath j segs = Json.null ∨ ResolvesTo segs j (walkPath j segs) := by
  induction segs generalizing j with
  | nil => exact Or.inr (ResolvesTo.nil j)
  | cons seg rest ih =>
    cases j with
    | obj fields =>
      cases hlook : lookupField fields seg with
      | none => left; simp [walkPath, Json.lookup, hlook]
      | some x =>
        have hw : walkPath (Json.obj fields) (seg :: rest) = walkPath x rest := by
          simp [walkPath, Json.lookup, hlook]
        rw [hw]
        rcases ih x with hnull | hres
        · exact Or.inl hnull
        · exact Or.inr (ResolvesTo.cons seg rest fields x _ hlook hres)
    | null => left; rfl
    | bool b => left; rfl
    | num q => left; rfl
    | str s => left; rfl
    | arr items => left; rfl

theorem statusInit_inv (raw : Json) (st : Status)
    (h : Status.init raw = Except.ok st) :
    safely_get_json_value raw "oat" (some PyTy.pfloat) = Except.ok st.outdoor_temperature
    ∧ safely_get_json_value raw "mode" none = Except.ok st.mode
    ∧ (∃ cv, requireKey raw "cfgem" = Except.ok cv
        ∧ TemperatureUnits.ofJson cv = Except.ok st.temperature_unit)
    ∧ safely_get_json_value raw "filtrlvl" (some PyTy.pint) = Except.ok st.filter_used
    ∧ safely_get_json_value raw "humlvl" (some PyTy.pint) = Except.ok st.humidity_level
    ∧ humidValue raw = Except.ok st.humidifier_on
    ∧ safely_get_json_value raw "uvlvl" (some PyTy.pint) = Except.ok st.uv_lamp_level
    ∧ safely_get_json_value raw "isDisconnected" (some PyTy.pbool) = Except.ok st.is_disconnected
    ∧ safely_get_json_value raw "idu.cfm" (some PyTy.pint) = Except.ok st.airflow_cfm
    ∧ safely_get_json_value raw "idu.blwrpm" (some PyTy.pint) = Except.ok st.blower_rpm
    ∧ safely_get_json_value raw "idu.statpress" (some PyTy.pfloat) = Except.ok st.static_pressure
    ∧ safely_get_json_value raw "odu.opstat" none = Except.ok st.outdoor_unit_operational_status
    ∧ safely_get_json_value raw "idu.opstat" none = Except.ok st.indoor_unit_operational_status
    ∧ (∃ ts, safely_get_json_value raw "utcTime" none = Except.ok ts
        ∧ isoparse ts = Except.ok st.time_stamp)
    ∧ (∃ zs, requireArr raw "zones" = Except.ok zs ∧ buildZones zs = Except.ok st.zones)
    ∧ StatusODU.init ((raw.lookup "odu").getD (Json.obj [])) = Except.ok st.odu
    ∧ StatusIDU.init ((raw.lookup "idu").getD (Json.obj [])) = Except.ok st.idu := by
  simp only [Status.init, except_bind_ok, Except.ok.injEq] at h
  obtain ⟨a1, h1, a2, h2, a3, h3, a4, h4, a5, h5, a6, h6, a7, h7, a8, h8, a9, h9,
    a10, h10, a11, h11, a12, h12, a13, h13, a14, h14, a15, h15, a16, h16,
    a17, h17, a18, h18, a19, h19, a20, h20, hst⟩ := h
  subst hst
  exact ⟨h1, h2, ⟨a3, h3, h4⟩, h5, h6, h7, h8, h9, h10, h11, h12, h13, h14,
    ⟨a15, h15, h16⟩, ⟨a17, h17, h18⟩, h19, h20⟩

theorem statusZoneInit_inv (zj : Json) (z : StatusZone)
    (h : StatusZone.init zj = Except.ok z) :
    safely_get_json_value zj "id" (some PyTy.pstr) = Except.ok z.api_id
    ∧ safely_get_json_value zj "name" none = Except.ok z.name
    ∧ (∃ ca, requireKey zj "currentActivity" = Except.ok ca
        ∧ ActivityTypes.ofJson ca = Except.ok z.current_activity)
    ∧ safely_get_json_value zj "rt" (some PyTy.pfloat) = Except.ok z.temperature
    ∧ safely_get_json_value zj "rh" (some PyTy.pint) = Except.ok z.humidity
    ∧ (∃ fv, requireKey zj "fan" = Except.ok fv ∧ FanModes.ofJson fv = Except.ok z.fan)
    ∧ safely_get_json_value zj "otmr" none = Except.ok z.hold_until
    ∧ safely_get_json_value zj "htsp" (some PyTy.pfloat) = Except.ok z.heat_set_point
    ∧ safely_get_json_value zj "clsp" (some PyTy.pfloat) = Except.ok z.cool_set_point
    ∧ safely_get_json_value zj "zoneconditioning" none = Except.ok z.conditioning := by
  simp only [StatusZone.init, except_bind_ok, Except.ok.injEq] at h
  obtain ⟨a1, h1, a2, h2, a3, h3, a4, h4, a5, h5, a6, h6, a7, h7, a8, h8, a9, h9,
    a10, h10, a11, h11, a12, h12, a13, h13, a14, h14, hz⟩ := h
  subst hz
  exact ⟨h1, h2, ⟨a3, h3, h4⟩, h5, h6, ⟨a8, h8, h9⟩, h11, h12, h13, h14⟩

theorem statusIduInit_inv (raw : Json) (u : StatusIDU)
    (h : StatusIDU.init raw = Except.ok u) :
    safely_get_json_value raw "cfm" (some PyTy.pint) = Except.ok u.airflow_cfm
    ∧ safely_get_json_value raw "statpress" (some PyTy.pfloat) = Except.ok u.static_pressure
    ∧ safely_get_json_value raw "blwrpm" (some PyTy.pint) = Except.ok u.blower_rpm := by
  simp only [StatusIDU.init, except_bind_ok, Except.ok.injEq] at h
  obtain ⟨a1, h1, a2, h2, a3, h3, a4, h4, a5, h5, hu⟩ := h
  subst hu
  exact ⟨h3, h4, h5⟩

theorem buildZones_eq_mapExcept (l : List Json) :
    buildZones l = mapExcept StatusZone.init (l.filter zoneEnabled) := by
  induction l with
  | nil => rfl
  | cons zj rest ih =>
    by_cases h : zoneEnabled zj
    · simp [buildZones, List.filter_cons, h, mapExcept, ih]
    · simp [buildZones, List.filter_cons, h, ih]

theorem mapExcept_ok_length {α β : Type} (f : α → Except PyErr β)
    (l : List α) (bs : List β) (h : mapExcept f l = Except.ok bs) :
    bs.length = l.length := by
  induction l generalizing bs with
  | nil =>
    simp only [mapExcept, Except.ok.injEq] at h
    subst h
    rfl
  | cons a rest ih =>
    simp only [mapExcept, except_bind_ok, Except.ok.injEq] at h
    obtain ⟨b, hb, cs, hcs, hbs⟩ := h
    subst hbs
    simp [ih cs hcs]

/-- C1: for every payload and every dotted path all of whose segments resolve
through mappings to a non-null value, `safely_get_json_value` returns that raw
nested value coerced to the requested target type (the raw value unchanged when
no type is supplied); for every path absent at some segment, or resolving only
to null, it returns the null-equivalent default and never raises. -/
theorem C1_safe_accessor (payload : Json) (path : String) (ty : Option PyTy) :
    (∀ v, ResolvesTo (splitPath path) payload v → v ≠ Json.null →
      safely_get_json_value payload path ty
        = Option.elim ty (Except.ok v) (fun t => coerce t v))
    ∧ ((∀ v, ResolvesTo (splitPath path) payload v → v = Json.null) →
      safely_get_json_value payload path ty = Except.ok Json.null) := by
  constructor
  · intro v hres hnn
    have hw := resolvesTo_walkPath _ _ _ hres
    unfold safely_get_json_value
    rw [hw]
    cases v with
    | null => exact absurd rfl hnn
    | bool b => cases ty <;> rfl
    | num q => cases ty <;> rfl
    | str s => cases ty <;> rfl
    | arr items => cases ty <;> rfl
    | obj fields => cases ty <;> rfl
  · intro hall
    rcases walkPath_null_or_resolves (splitPath path) payload with hnull | hres
    · unfold safely_get_json_value
      rw [hnull]
      cases ty <;> rfl
    · have hv := hall _ hres
      unfold safely_get_json_value
      rw [hv]
      cases ty <;> rfl

theorem C1_witness :
    safely_get_json_value (Json.obj [("a", Json.obj [("b", Json.num 7)])]) "a.b"
        (some PyTy.pint)
      = Except.ok (Json.num 7) := by
  have h := (C1_safe_accessor (Json.obj [("a", Json.obj [("b", Json.num 7)])])
      "a.b" (some PyTy.pint)).1 (Json.num 7)
    (ResolvesTo.cons "a" ["b"] _ (Json.obj [("b", Json.num 7)]) (Json.num 7) rfl
      (ResolvesTo.cons "b" [] _ (Json.num 7) (Json.num 7) rfl (ResolvesTo.nil _)))
    (by simp)
  exact h.trans (by rfl)

/-- C3: the derived operation `mode_const` returns HEAT exactly when the mode
value is the string gasheat, electric or hpheat, returns COOL exactly when it
is dehumidify, and raises for every other value. -/
theorem C3_mode_classification (st : Status) :
    (st.mode_const = Except.ok SystemModes.heat ↔
      st.mode = Json.str "gasheat" ∨ st.mode = Json.str "electric"
        ∨ st.mode = Json.str "hpheat")
    ∧ (st.mode_const = Except.ok SystemModes.cool ↔ st.mode = Json.str "dehumidify")
    ∧ (isErr st.mode_const = true ↔
      st.mode ≠ Json.str "gasheat" ∧ st.mode ≠ Json.str "electric"
        ∧ st.mode ≠ Json.str "hpheat" ∧ st.mode ≠ Json.str "dehumidify") := by
  unfold Status.mode_const
  refine ⟨?_, ?_, ?_⟩ <;> (split <;> simp_all [isErr])

/-- C5: the derived operation `zone_conditioning_const` is determined by the
conditioning value of the zone alone: the three heat strings map to HEAT, the three
cool strings map to COOL, idle maps to OFF, and every other value raises. -/
theorem C5_conditioning_classification (z : StatusZone) :
    (z.zone_conditioning_const = Except.ok SystemModes.heat ↔
      z.conditioning = Json.str "active_heat" ∨ z.conditioning = Json.str "prep_heat"
        ∨ z.conditioning = Json.str "pending_heat")
    ∧ (z.zone_conditioning_const = Except.ok SystemModes.cool ↔
      z.conditioning = Json.str "active_cool" ∨ z.conditioning = Json.str "prep_cool"
        ∨ z.conditioning = Json.str "pending_cool")
    ∧ (z.zone_conditioning_const = Except.ok SystemModes.off ↔
      z.conditioning = Json.str "idle")
    ∧ (isErr z.zone_conditioning_const = true ↔ condInVocab z.conditioning = false) := by
  unfold StatusZone.zone_conditioning_const
  refine ⟨?_, ?_, ?_, ?_⟩ <;> (split <;> simp_all [isErr, condInVocab])

/-- C4 counterexample: a payload with the operating-mode key entirely absent
still constructs successfully, and the constructed object carries the
null-equivalent mode, refuting the claim that such construction fails. -/
theorem C4_cex :
    (Status.init payloadNoMode).toOption.map Status.mode = some Json.null := by
  rfl

/-- C4 (amended): `Status.__init__` stores the raw mode value without any
validation, so a payload whose mode is missing, null, or out of vocabulary can
construct successfully; the error is raised only when the derived `mode_const`
classification is accessed on such an object. -/
theorem C4_mode_not_validated (raw : Json) (st : Status)
    (hok : Status.init raw = Except.ok st) :
    safely_get_json_value raw "mode" none = Except.ok st.mode
    ∧ (modeInVocab st.mode = false → isErr st.mode_const = true) := by
  have h := statusInit_inv raw st hok
  refine ⟨h.2.1, fun hv => ?_⟩
  unfold Status.mode_const
  split <;> simp_all [modeInVocab, isErr]

theorem C4_witness :
    safely_get_json_value payloadNoMode "mode" none
      = Except.ok ((Status.init payloadNoMode).toOption.getD default).mode
    ∧ isErr (Status.mode_const ((Status.init payloadNoMode).toOption.getD default))
      = true := by
  have h := C4_mode_not_validated payloadNoMode
    ((Status.init payloadNoMode).toOption.getD default) (by rfl)
  exact ⟨h.1, h.2 (by rfl)⟩

/-- C6 counterexample: a zone record whose conditioning value is the
out-of-vocabulary string frozen still constructs successfully, and the
constructed zone carries that string, refuting the claim that construction
rejects it. -/
theorem C6_cex :
    (StatusZone.init zoneFrozen).toOption.map StatusZone.conditioning
      = some (Json.str "frozen") := by
  rfl

/-- C6 (amended): `StatusZone.__init__` stores the raw conditioning value
without any validation, so a zone with an out-of-vocabulary conditioning value
can construct successfully; the error is raised only when the derived
`zone_conditioning_const` classification is accessed on such a zone. -/
theorem C6_conditioning_not_validated (zj : Json) (z : StatusZone)
    (hok : StatusZone.init zj = Except.ok z) :
    safely_get_json_value zj "zoneconditioning" none = Except.ok z.conditioning
    ∧ (condInVocab z.conditioning = false → isErr z.zone_conditioning_const = true) := by
  have h := statusZoneInit_inv zj z hok
  refine ⟨h.2.2.2.2.2.2.2.2.2, fun hv => ?_⟩
  unfold StatusZone.zone_conditioning_const
  split <;> simp_all [condInVocab, isErr]

theorem C6_witness :
    safely_get_json_value zoneFrozen "zoneconditioning" none
      = Except.ok ((StatusZone.init zoneFrozen).toOption.getD default).conditioning
    ∧ isErr (StatusZone.zone_conditioning_const
        ((StatusZone.init zoneFrozen).toOption.getD default)) = true := by
  have h := C6_conditioning_not_validated zoneFrozen
    ((StatusZone.init zoneFrozen).toOption.getD default) (by rfl)
  exact ⟨h.1, h.2 (by rfl)⟩

/-- C2: for every successfully constructed status, the zones field holds
exactly one constructed `StatusZone` per entry of the zones sequence of the payload
whose enabled value equals the string on-value, in payload order; all other
entries are excluded, and the filter test is exactly equality of the safely
fetched enabled value with that string. -/
theorem C2_zone_filtering (raw : Json) (st : Status) (zs : List Json)
    (hok : Status.init raw = Except.ok st)
    (hzones : requireArr raw "zones" = Except.ok zs) :
    mapExcept StatusZone.init (zs.filter zoneEnabled) = Except.ok st.zones
    ∧ st.zones.length = (zs.filter zoneEnabled).length
    ∧ ∀ zj, zoneEnabled zj = true ↔
        safely_get_json_value zj "enabled" none = Except.ok (Json.str "on") := by
  have h := statusInit_inv raw st hok
  obtain ⟨zsp, hzp, hbuild⟩ := h.2.2.2.2.2.2.2.2.2.2.2.2.2.2.1
  rw [hzones] at hzp
  injection hzp with hzseq
  subst hzseq
  rw [buildZones_eq_mapExcept] at hbuild
  refine ⟨hbuild, (mapExcept_ok_length _ _ _ hbuild).symm ▸ rfl, fun zj => ?_⟩
  unfold zoneEnabled
  rw [sgjv_none_ok]
  cases hw : walkPath zj (splitPath "enabled") with
  | str s => simp
  | null => simp
  | bool b => simp
  | num q => simp
  | arr items => simp
  | obj fields => simp

theorem C2_witness :
    mapExcept StatusZone.init ([zoneOn, zoneOff].filter zoneEnabled)
      = Except.ok ((Status.init payloadTwoZones).toOption.getD default).zones
    ∧ ((Status.init payloadTwoZones).toOption.getD default).zones.length
      = ([zoneOn, zoneOff].filter zoneEnabled).length := by
  have h := C2_zone_filtering payloadTwoZones
    ((Status.init payloadTwoZones).toOption.getD default) [zoneOn, zoneOff]
    (by rfl) (by rfl)
  exact ⟨h.1, h.2.1⟩


/-- C7: on every successful construction, the humidifier-on field is left
unset (null-equivalent, distinct from false) when the humid key is entirely
absent, is true when the humid value is the string on-value, and is false for
every other string value. -/
theorem C7_humidifier (raw : Json) (st : Status)
    (hok : Status.init raw = Except.ok st) :
    (raw.lookup "humid" = none →
      st.humidifier_on = Json.null ∧ st.humidifier_on ≠ Json.bool false)
    ∧ (raw.lookup "humid" = some (Json.str "on") → st.humidifier_on = Json.bool true)
    ∧ (∀ s, raw.lookup "humid" = some (Json.str s) → s ≠ "on" →
        st.humidifier_on = Json.bool false) := by
  have hhum := (statusInit_inv raw st hok).2.2.2.2.2.1
  unfold humidValue at hhum
  refine ⟨fun hl => ?_, fun hl => ?_, fun s hl hne => ?_⟩
  · rw [hl] at hhum
    simp only [Except.ok.injEq] at hhum
    rw [← hhum]
    simp
  · rw [hl] at hhum
    have hsg : safely_get_json_value raw "humid" (some PyTy.pstr)
        = Except.ok (Json.str "on") := by
      unfold safely_get_json_value
      have hw : walkPath raw (splitPath "humid") = Json.str "on" := by
        have hsp : splitPath "humid" = ["humid"] := rfl
        rw [hsp]
        simp [walkPath, hl]
      rw [hw]
      rfl
    simp [hsg, Bind.bind, Except.bind] at hhum
    exact hhum.symm
  · rw [hl] at hhum
    have hsg : safely_get_json_value raw "humid" (some PyTy.pstr)
        = Except.ok (Json.str s) := by
      unfold safely_get_json_value
      have hw : walkPath raw (splitPath "humid") = Json.str s := by
        have hsp : splitPath "humid" = ["humid"] := rfl
        rw [hsp]
        simp [walkPath, hl]
      rw [hw]
      rfl
    simp [hsg, Bind.bind, Except.bind] at hhum
    rw [beq_eq_false_iff_ne.mpr hne] at hhum
    exact hhum.symm

theorem C7_witness :
    ((Status.init payloadHumidOff).toOption.getD default).humidifier_on
      = Json.bool false := by
  have h := C7_humidifier payloadHumidOff
    ((Status.init payloadHumidOff).toOption.getD default) (by rfl)
  exact h.2.2 "off" (by rfl) (by decide)

/-- C8 counterexample: a payload missing the cfgem key whose oat value cannot
be coerced to float fails with the oat coercion error, not the missing-cfgem
error, refuting the claim that the missing-cfgem error precedes every other
field extraction and failure. -/
theorem C8_cex :
    payloadBadOat.lookup "cfgem" = none
    ∧ Status.init payloadBadOat
      = Except.error (PyErr.valueError "could not convert string to float: abc") := by
  exact ⟨rfl, rfl⟩

/-- C8 (amended): for every payload missing the cfgem key, when the oat
extraction performed before it does not itself raise a coercion error,
construction fails with the missing-cfgem key error regardless of every later
field; only the oat extraction and the infallible untyped mode extraction
happen first, and an oat coercion failure takes precedence. -/
theorem C8_missing_cfgem (raw : Json)
    (hcf : raw.lookup "cfgem" = none)
    (hoat : isErr (safely_get_json_value raw "oat" (some PyTy.pfloat)) = false) :
    Status.init raw = Except.error (PyErr.keyError "cfgem") := by
  unfold Status.init
  cases hv : safely_get_json_value raw "oat" (some PyTy.pfloat) with
  | error e => rw [hv] at hoat; simp [isErr] at hoat
  | ok a => simp [Bind.bind, Except.bind, sgjv_none_ok, requireKey, hcf]

theorem C8_witness :
    Status.init (Json.obj []) = Except.error (PyErr.keyError "cfgem") :=
  C8_missing_cfgem (Json.obj []) (by rfl) (by rfl)

theorem TemperatureUnits.ofJson_value (j : Json) (u : TemperatureUnits)
    (h : TemperatureUnits.ofJson j = Except.ok u) : Json.str u.value = j := by
  unfold TemperatureUnits.ofJson at h
  split at h
  · injection h with h1; subst h1; rfl
  · injection h with h1; subst h1; rfl
  · cases h

/-- C9 counterexample: a successfully constructed status carries a non-null
UV-lamp level, yet its structural representation has no entry for that scalar
field at all, refuting the claim that the representation reproduces every
scalar field value. -/
theorem C9_cex :
    (Status.init payloadUv).toOption.map
        (fun st => ((st.reprJson).lookup "uv_lamp_level", st.uv_lamp_level))
      = some (none, Json.num 3) := by
  rfl

/-- C9 (amended): on every successful construction, the structural
representation reproduces each scalar field of the constructed object
unchanged, modulo unwrapping the temperature-unit enum to its underlying
string (which itself equals the raw cfgem value), except that the
uv_lamp_level and time_stamp fields are omitted from the representation
entirely. -/
theorem C9_repr_roundtrip (raw : Json) (st : Status)
    (hok : Status.init raw = Except.ok st) :
    (st.reprJson).lookup "outdoor_temperature" = some st.outdoor_temperature
    ∧ (st.reprJson).lookup "mode" = some st.mode
    ∧ (st.reprJson).lookup "temperature_unit" = some (Json.str st.temperature_unit.value)
    ∧ (∃ cv, requireKey raw "cfgem" = Except.ok cv
        ∧ Json.str st.temperature_unit.value = cv)
    ∧ (st.reprJson).lookup "filter_used" = some st.filter_used
    ∧ (st.reprJson).lookup "is_disconnected" = some st.is_disconnected
    ∧ (st.reprJson).lookup "airflow_cfm" = some st.airflow_cfm
    ∧ (st.reprJson).lookup "blower_rpm" = some st.blower_rpm
    ∧ (st.reprJson).lookup "static_pressure" = some st.static_pressure
    ∧ (st.reprJson).lookup "humidity_level" = some st.humidity_level
    ∧ (st.reprJson).lookup "humidifier_on" = some st.humidifier_on
    ∧ (st.reprJson).lookup "outdoor_unit_operational_status"
      = some st.outdoor_unit_operational_status
    ∧ (st.reprJson).lookup "indoor_unit_operational_status"
      = some st.indoor_unit_operational_status
    ∧ (st.reprJson).lookup "uv_lamp_level" = none := by
  have h := statusInit_inv raw st hok
  obtain ⟨cv, hcv, hofj⟩ := h.2.2.1
  exact ⟨rfl, rfl, rfl, ⟨cv, hcv, TemperatureUnits.ofJson_value cv _ hofj⟩,
    rfl, rfl, rfl, rfl, rfl, rfl, rfl, rfl, rfl, rfl⟩

theorem C9_witness :
    ((((Status.init payloadUv).toOption.getD default).reprJson).lookup "mode"
      = some ((Status.init payloadUv).toOption.getD default).mode)
    ∧ ((((Status.init payloadUv).toOption.getD default).reprJson).lookup "uv_lamp_level"
      = none) := by
  have h := C9_repr_roundtrip payloadUv
    ((Status.init payloadUv).toOption.getD default) (by rfl)
  exact ⟨h.2.1, h.2.2.2.2.2.2.2.2.2.2.2.2.2⟩

theorem walkPath_idu (raw : Json) (seg : String) :
    walkPath raw ["idu", seg]
      = walkPath ((raw.lookup "idu").getD (Json.obj [])) [seg] := by
  cases raw with
  | obj fields =>
    cases hl : lookupField fields "idu" with
    | none => simp [walkPath, Json.lookup, hl, lookupField]
    | some v => simp [walkPath, Json.lookup, hl]
  | null => rfl
  | bool b => rfl
  | num q => rfl
  | str s => rfl
  | arr items => rfl

theorem sgjv_eq_of_walk (j1 j2 : Json) (p1 p2 : String) (ty : Option PyTy)
    (h : walkPath j1 (splitPath p1) = walkPath j2 (splitPath p2)) :
    safely_get_json_value j1 p1 ty = safely_get_json_value j2 p2 ty := by
  unfold safely_get_json_value
  rw [h]

/-- C10: on every successful construction, the top-level airflow_cfm,
blower_rpm and static_pressure fields, extracted through the dotted paths off
the whole payload, agree with the corresponding fields of the contained
indoor-unit snapshot built from the idu sub-mapping. -/
theorem C10_idu_agreement (raw : Json) (st : Status)
    (hok : Status.init raw = Except.ok st) :
    st.airflow_cfm = st.idu.airflow_cfm
    ∧ st.blower_rpm = st.idu.blower_rpm
    ∧ st.static_pressure = st.idu.static_pressure := by
  have h := statusInit_inv raw st hok
  have hcfm := h.2.2.2.2.2.2.2.2.1
  have hrpm := h.2.2.2.2.2.2.2.2.2.1
  have hsp := h.2.2.2.2.2.2.2.2.2.2.1
  have hidu := h.2.2.2.2.2.2.2.2.2.2.2.2.2.2.2.2
  have hu := statusIduInit_inv _ _ hidu
  have e1 : safely_get_json_value raw "idu.cfm" (some PyTy.pint)
      = safely_get_json_value ((raw.lookup "idu").getD (Json.obj [])) "cfm"
        (some PyTy.pint) :=
    sgjv_eq_of_walk _ _ _ _ _ (walkPath_idu raw "cfm")
  have e2 : safely_get_json_value raw "idu.blwrpm" (some PyTy.pint)
      = safely_get_json_value ((raw.lookup "idu").getD (Json.obj [])) "blwrpm"
        (some PyTy.pint) :=
    sgjv_eq_of_walk _ _ _ _ _ (walkPath_idu raw "blwrpm")
  have e3 : safely_get_json_value raw "idu.statpress" (some PyTy.pfloat)
      = safely_get_json_value ((raw.lookup "idu").getD (Json.obj [])) "statpress"
        (some PyTy.pfloat) :=
    sgjv_eq_of_walk _ _ _ _ _ (walkPath_idu raw "statpress")
  rw [e1, hu.1] at hcfm
  rw [e2, hu.2.2] at hrpm
  rw [e3, hu.2.1] at hsp
  injection hcfm with h1
  injection hrpm with h2
  injection hsp with h3
  exact ⟨h1.symm, h2.symm, h3.symm⟩

theorem C10_witness :
    ((Status.init payloadIdu).toOption.getD default).airflow_cfm
      = ((Status.init payloadIdu).toOption.getD default).idu.airflow_cfm
    ∧ ((Status.init payloadIdu).toOption.getD default).blower_rpm
      = ((Status.init payloadIdu).toOption.getD default).idu.blower_rpm
    ∧ ((Status.init payloadIdu).toOption.getD default).static_pressure
      = ((Status.init payloadIdu).toOption.getD default).idu.static_pressure :=
  C10_idu_agreement payloadIdu
    ((Status.init payloadIdu).toOption.getD default) (by rfl)
